import Mathlib

/-!
# Verification of the text-to-sql-chatbot core (`main.py`)

Shallow embedding of the repository's single source file `main.py`:
the structured-response extractor `extract_json_from_response`, the two
jsonschema validators (`sql_schema`, `response_schema`), and the two-stage
retrying orchestrator `ask`.

External collaborators (the Gemini chat sessions, the SQLite cursor and
Python's `json.loads`) are modelled as parameters of an environment
record; the control flow, fence handling, validation and retry logic are
translated statement by statement from the source.
-/

/-- JSON values as produced by Python's `json.loads`. Objects are Python
dicts, represented as key/value lists built in insertion order (for a dict
literal the last binding of a repeated key wins, hence lookup scans from
the right). -/
inductive Json where
  | null
  | bool (b : Bool)
  | num (n : Int)
  | str (s : String)
  | arr (elems : List Json)
  | obj (fields : List (String × Json))
deriving Repr

/-- Lookup of key `k` in a Python dict built from a key/value list
(last binding wins, as in `dict` construction). -/
def jlookup (fields : List (String × Json)) (k : String) : Option Json :=
  (fields.reverse.find? (fun p => p.1 == k)).map (fun p => p.2)

/-- Python subscription `v[k]` on a parsed JSON value: `KeyError` when the
key is absent, `TypeError` when the value is not a dict. -/
def jsonIndex (v : Json) (k : String) : Except String Json :=
  match v with
  | Json.obj fields =>
      match jlookup fields k with
      | some x => Except.ok x
      | none => Except.error ("KeyError: " ++ k)
  | _ => Except.error "TypeError: value is not subscriptable"

/-- The ASCII whitespace characters removed by Python's `str.strip()`.
(Python also strips non-ASCII Unicode whitespace; the model covers the
ASCII range, which is all the repository's texts use.) -/
def isPyWs (c : Char) : Bool :=
  c == ' ' || c == '\t' || c == '\n' || c == '\r' || c == '\x0b' || c == '\x0c'

/-- Python `str.strip()`: drop leading and trailing whitespace. -/
def pyStrip (cs : List Char) : List Char :=
  ((cs.dropWhile isPyWs).reverse.dropWhile isPyWs).reverse

/-- Fuel-indexed worker for Python `str.split(sep)`: scan left to right,
cut at each non-overlapping occurrence of `sep`. The fuel only serves
termination; `pySplit` supplies `text.length`, which always suffices. -/
def pySplitF (sep : List Char) : Nat → List Char → List (List Char)
  | _, [] => [[]]
  | 0, text => [text]
  | fuel + 1, c :: rest =>
      if sep.isPrefixOf (c :: rest) && !sep.isEmpty then
        [] :: pySplitF sep fuel (List.drop sep.length (c :: rest))
      else
        match pySplitF sep fuel rest with
        | [] => [[c]]
        | s :: ss => (c :: s) :: ss

/-- Python `text.split(sep)` for a non-empty separator. -/
def pySplit (sep text : List Char) : List (List Char) :=
  pySplitF sep text.length text

/-- Python's substring test `sep in text`. -/
def containsSub (sep : List Char) : List Char → Bool
  | [] => sep.isEmpty
  | c :: rest => sep.isPrefixOf (c :: rest) || containsSub sep rest

/-- Index of the first occurrence of `sep` in `text` (`none` when absent).
Used only in specification-side statements about the extractor. -/
def findSub (sep : List Char) : List Char → Option Nat
  | [] => if sep.isEmpty then some 0 else none
  | c :: rest =>
      if sep.isPrefixOf (c :: rest) then some 0
      else (findSub sep rest).map (fun i => i + 1)

/-- Whether `sep` occurs in `l` at position `p`. -/
def occursAt (sep l : List Char) (p : Nat) : Bool :=
  sep.isPrefixOf (l.drop p)

/-- The generic Markdown fence marker. -/
def fenceMark : List Char := "```".toList

/-- The JSON-tagged Markdown fence marker. -/
def jsonFenceMark : List Char := "```json".toList

/-- Embedding of `extract_json_from_response(text)` from `main.py`,
parameterised by the
external JSON parser `loads` (Python's `json.loads`): try a direct parse of
the whole text; on failure pick a candidate substring by fence markers
(`text.split('```json')[1].split('```')[0]`, else
`text.split('```')[1].split('```')[0]`, else the whole text), strip it and
parse it, propagating any failure of that second parse. -/
def extract_json_from_response (loads : String → Except String Json)
    (text : String) : Except String Json :=
  match loads text with
  | Except.ok v => Except.ok v
  | Except.error _ =>
      let cs := text.toList
      let json_text : List Char :=
        if containsSub jsonFenceMark cs then
          ((pySplit fenceMark ((pySplit jsonFenceMark cs).getD 1 [])).getD 0 [])
        else if containsSub fenceMark cs then
          ((pySplit fenceMark ((pySplit fenceMark cs).getD 1 [])).getD 0 [])
        else cs
      loads (String.mk (pyStrip json_text))

/-- A SQLite column value as returned by `cur.fetchall()`. `REAL` and
`BLOB` columns (floating point / bytes) are outside the modelled fragment;
the repository's schema uses integer, text and date (text) columns. -/
inductive Prim where
  | pint (n : Int)
  | pstr (s : String)
  | pnull
deriving DecidableEq, Repr

/-- A result row (`cur.fetchall()` returns a list of tuples). -/
abbrev Row : Type := List Prim

/-- Lowercase hexadecimal digit, as used by `json.dumps` escapes. -/
def hexDigit (n : Nat) : Char :=
  if n < 10 then Char.ofNat (48 + n) else Char.ofNat (87 + n)

/-- A `\uXXXX` escape for a code unit `n < 0x10000`. -/
def uEscape (n : Nat) : List Char :=
  ['\\', 'u', hexDigit (n / 4096 % 16), hexDigit (n / 256 % 16),
   hexDigit (n / 16 % 16), hexDigit (n % 16)]

/-- The `json.dumps` escaping of one character (default `ensure_ascii=True`). -/
def escChar (c : Char) : List Char :=
  if c = '"' then ['\\', '"']
  else if c = '\\' then ['\\', '\\']
  else if c = '\n' then ['\\', 'n']
  else if c = '\r' then ['\\', 'r']
  else if c = '\t' then ['\\', 't']
  else if c = '\x08' then ['\\', 'b']
  else if c = '\x0c' then ['\\', 'f']
  else if c.toNat < 0x20 then uEscape c.toNat
  else if c.toNat < 0x7f then [c]
  else if c.toNat ≤ 0xffff then uEscape c.toNat
  else uEscape (0xd800 + (c.toNat - 0x10000) / 1024) ++
       uEscape (0xdc00 + (c.toNat - 0x10000) % 1024)

/-- Serialization `json.dumps` of a Python string. -/
def dumpsString (s : String) : String :=
  "\"" ++ String.mk (s.toList.flatMap escChar) ++ "\""

/-- Serialization `json.dumps` of one column value. -/
def dumpsPrim : Prim → String
  | Prim.pint n => toString n
  | Prim.pstr s => dumpsString s
  | Prim.pnull => "null"

/-- Serialization `json.dumps` of one row (a Python tuple serialises as a JSON array,
with the default `", "` item separator). -/
def dumpsRow (r : Row) : String :=
  "[" ++ String.intercalate ", " (r.map dumpsPrim) ++ "]"

/-- The serialized `dataText = json.dumps(data)` for `data = cur.fetchall()`. -/
def dumps (data : List Row) : String :=
  "[" ++ String.intercalate ", " (data.map dumpsRow) ++ "]"

/-- Embedding of `jsonschema.validate(instance, sql_schema)` for
`sql_schema = {type: object, properties: {sqlQuery: string,
description: string}, required: [sqlQuery]}`: the instance must be an
object, `sqlQuery` must be present and a string, and `description`, when
present, must be a string. Raises (returns an error) otherwise. -/
def validate_sql_schema (v : Json) : Except String Unit :=
  match v with
  | Json.obj fields =>
      match jlookup fields "sqlQuery" with
      | some (Json.str _) =>
          match jlookup fields "description" with
          | some (Json.str _) => Except.ok ()
          | some _ => Except.error "ValidationError: description is not of type string"
          | none => Except.ok ()
      | some _ => Except.error "ValidationError: sqlQuery is not of type string"
      | none => Except.error "ValidationError: sqlQuery is a required property"
  | _ => Except.error "ValidationError: instance is not of type object"

/-- Embedding of `jsonschema.validate(instance, response_schema)` for
`response_schema = {type: object, properties: {message: string},
required: [message]}`. -/
def validate_response_schema (v : Json) : Except String Unit :=
  match v with
  | Json.obj fields =>
      match jlookup fields "message" with
      | some (Json.str _) => Except.ok ()
      | some _ => Except.error "ValidationError: message is not of type string"
      | none => Except.error "ValidationError: message is a required property"
  | _ => Except.error "ValidationError: instance is not of type object"

/-- The external collaborators of one `ask(question, history)` call, for a
fixed question: the JSON parser, the SQL-stage chat session, the SQLite
cursor, and the answer-stage chat session. The chat sessions keep history
across retries, so their replies may vary between attempts; both reply
oracles therefore take the attempt index. Each call either returns a value
or raises (an error string, Python's `str(e)`). -/
structure AskEnv where
  loads : String → Except String Json
  sqlReply : Nat → Except String String
  execQuery : Nat → String → Except String (List Row)
  ansReply : Nat → String → Except String String

/-- Step 1 of one attempt of `ask`: `sql_chat.send_message(...)`,
`extract_json_from_response`, `validate(..., sql_schema)`, and
`sql_json["sqlQuery"]`. Returns the SQL text handed to `cur.execute`
(which requires a string; the non-string arm is unreachable once
validation has passed). -/
def sqlStage (env : AskEnv) (attempt : Nat) : Except String String :=
  match env.sqlReply attempt with
  | Except.error e => Except.error e
  | Except.ok replyText =>
      match extract_json_from_response env.loads replyText with
      | Except.error e => Except.error e
      | Except.ok sql_json =>
          match validate_sql_schema sql_json with
          | Except.error e => Except.error e
          | Except.ok _ =>
              match jsonIndex sql_json "sqlQuery" with
              | Except.error e => Except.error e
              | Except.ok (Json.str q) => Except.ok q
              | Except.ok _ => Except.error "TypeError: execute requires a string statement"

/-- Step 2 of one attempt of `ask`: `response_chat.send_message(...)` over
the serialized query result, `extract_json_from_response`,
`validate(..., response_schema)`, and `response_json["message"]`. -/
def answerStage (env : AskEnv) (attempt : Nat) (dataText : String) :
    Except String Json :=
  match env.ansReply attempt dataText with
  | Except.error e => Except.error e
  | Except.ok replyText =>
      match extract_json_from_response env.loads replyText with
      | Except.error e => Except.error e
      | Except.ok response_json =>
          match validate_response_schema response_json with
          | Except.error e => Except.error e
          | Except.ok _ => jsonIndex response_json "message"

/-- One iteration of the `for attempt in range(tries)` body: the outcome
(the value of `response_json["message"]`, or the caught exception), paired
with the list of `cur.execute` calls it performed, tagged with the attempt
index. -/
def attemptRun (env : AskEnv) (attempt : Nat) :
    Except String Json × List (Nat × String) :=
  match sqlStage env attempt with
  | Except.error e => (Except.error e, [])
  | Except.ok query =>
      (match env.execQuery attempt query with
       | Except.error e => Except.error e
       | Except.ok data => answerStage env attempt (dumps data),
       [(attempt, query)])

/-- A Python return value of `ask`: the success path returns
`response_json["message"]` (a JSON value, a string once validated); the
exhaustion path returns the 2-tuple `(f"Sorry, I encountered an error:
{str(e)}", None)`; falling off the loop end would return `None`. -/
inductive PyRet where
  | val (v : Json)
  | strNonePair (s : String)
  | noneRet
deriving Repr

/-- Observable trace of one `ask` call: its return value, the backoff
sleeps performed (seconds, in order), the `cur.execute` calls performed
(attempt index and SQL text, in order), and how many loop iterations ran. -/
structure AskTrace where
  ret : PyRet
  sleeps : List Nat
  execs : List (Nat × String)
  attempts : Nat
deriving Repr

/-- The retry ceiling `tries = 4` from `ask`. -/
def tries : Nat := 4

/-- The retry loop of `ask`: at each attempt run the two-stage body; on
success return the message; on a caught exception, if `attempt < tries-1`
sleep `2 * (attempt + 1)` seconds and continue, else return the error
tuple. The second argument is the number of iterations `range(tries)` has
left (structurally decreasing; `ask` starts it at `tries`). -/
def askLoop (env : AskEnv) : Nat → Nat → AskTrace
  | _, 0 => { ret := PyRet.noneRet, sleeps := [], execs := [], attempts := 0 }
  | attempt, remaining + 1 =>
      match attemptRun env attempt with
      | (Except.ok v, ex) =>
          { ret := PyRet.val v, sleeps := [], execs := ex, attempts := 1 }
      | (Except.error e, ex) =>
          if attempt < tries - 1 then
            let r := askLoop env (attempt + 1) remaining
            { ret := r.ret, sleeps := 2 * (attempt + 1) :: r.sleeps,
              execs := ex ++ r.execs, attempts := r.attempts + 1 }
          else
            { ret := PyRet.strNonePair ("Sorry, I encountered an error: " ++ e),
              sleeps := [], execs := ex, attempts := 1 }

/-- Embedding of `ask(question, history)` from `main.py`, for the fixed question and
collaborators packaged in `env`. -/
def ask (env : AskEnv) : AskTrace :=
  askLoop env 0 tries

/-! ## Properties of the Python split/search primitives -/

theorem pySplitF_congr (sep : List Char) :
    ∀ f₁ f₂ : Nat, ∀ l : List Char, l.length ≤ f₁ → l.length ≤ f₂ →
      pySplitF sep f₁ l = pySplitF sep f₂ l := by
  intro f₁
  induction f₁ with
  | zero =>
      intro f₂ l h₁ _
      have hl : l = [] := List.eq_nil_of_length_eq_zero (Nat.le_zero.mp h₁)
      subst hl
      cases f₂ <;> rfl
  | succ f ih =>
      intro f₂ l h₁ h₂
      cases l with
      | nil => cases f₂ <;> rfl
      | cons c rest =>
          cases f₂ with
          | zero => simp at h₂
          | succ g =>
              simp only [pySplitF]
              by_cases hb : (sep.isPrefixOf (c :: rest) && !sep.isEmpty) = true
              · rw [if_pos hb, if_pos hb]
                have hsep : 1 ≤ sep.length := by
                  cases sep with
                  | nil => simp at hb
                  | cons a as => simp
                rw [ih g (List.drop sep.length (c :: rest))
                      (by rw [List.length_drop]; simp only [List.length_cons] at h₁ ⊢; omega)
                      (by rw [List.length_drop]; simp only [List.length_cons] at h₂ ⊢; omega)]
              · rw [if_neg hb, if_neg hb]
                rw [ih g rest (by simp only [List.length_cons] at h₁; omega)
                      (by simp only [List.length_cons] at h₂; omega)]

theorem pySplit_nil (sep : List Char) : pySplit sep [] = [[]] := rfl

theorem pySplit_cons_pos (sep : List Char) (c : Char) (rest : List Char)
    (h : sep.isPrefixOf (c :: rest) = true) (hne : sep ≠ []) :
    pySplit sep (c :: rest) = [] :: pySplit sep (List.drop sep.length (c :: rest)) := by
  have hsep : 1 ≤ sep.length := List.length_pos.mpr hne
  have hb : (sep.isPrefixOf (c :: rest) && !sep.isEmpty) = true := by
    rw [h]
    cases sep with
    | nil => exact absurd rfl hne
    | cons a as => rfl
  show pySplitF sep (c :: rest).length (c :: rest) = _
  simp only [List.length_cons, pySplitF, if_pos hb]
  congr 1
  exact pySplitF_congr sep rest.length (List.drop sep.length (c :: rest)).length _
    (by rw [List.length_drop]; simp only [List.length_cons]; omega) (Nat.le_refl _)

theorem pySplit_cons_neg (sep : List Char) (c : Char) (rest : List Char)
    (h : sep.isPrefixOf (c :: rest) = false) :
    pySplit sep (c :: rest) =
      match pySplit sep rest with
      | [] => [[c]]
      | s :: ss => (c :: s) :: ss := by
  have hb : (sep.isPrefixOf (c :: rest) && !sep.isEmpty) = false := by
    rw [h]; rfl
  show pySplitF sep (c :: rest).length (c :: rest) = _
  simp only [List.length_cons, pySplitF, hb, Bool.false_eq_true, if_false]
  rfl

theorem pySplitF_ne_nil (sep : List Char) :
    ∀ f : Nat, ∀ l : List Char, pySplitF sep f l ≠ [] := by
  intro f
  induction f with
  | zero => intro l; cases l <;> simp [pySplitF]
  | succ g ih =>
      intro l
      cases l with
      | nil => simp [pySplitF]
      | cons c rest =>
          simp only [pySplitF]
          split
          · simp
          · split <;> simp

theorem pySplit_ne_nil (sep l : List Char) : pySplit sep l ≠ [] :=
  pySplitF_ne_nil sep l.length l

theorem findSub_some_occurs (sep : List Char) :
    ∀ l : List Char, ∀ i : Nat, findSub sep l = some i → occursAt sep l i = true := by
  intro l
  induction l with
  | nil =>
      intro i h
      simp only [findSub] at h
      by_cases he : sep.isEmpty
      · rw [if_pos he] at h
        cases h
        cases sep with
        | nil => rfl
        | cons a as => simp at he
      · rw [if_neg he] at h
        cases h
  | cons c rest ih =>
      intro i h
      simp only [findSub] at h
      by_cases hp : sep.isPrefixOf (c :: rest) = true
      · rw [if_pos hp] at h
        cases h
        exact hp
      · rw [if_neg hp] at h
        rcases Option.map_eq_some'.mp h with ⟨i', hi', rfl⟩
        exact ih i' hi'

theorem findSub_some_min (sep : List Char) :
    ∀ l : List Char, ∀ i : Nat, findSub sep l = some i →
      ∀ p : Nat, p < i → occursAt sep l p = false := by
  intro l
  induction l with
  | nil =>
      intro i h p hp
      simp only [findSub] at h
      by_cases he : sep.isEmpty
      · rw [if_pos he] at h; cases h; omega
      · rw [if_neg he] at h; cases h
  | cons c rest ih =>
      intro i h p hp
      simp only [findSub] at h
      by_cases hpre : sep.isPrefixOf (c :: rest) = true
      · rw [if_pos hpre] at h; cases h; omega
      · rw [if_neg hpre] at h
        rcases Option.map_eq_some'.mp h with ⟨i', hi', rfl⟩
        cases p with
        | zero =>
            simp only [occursAt, List.drop_zero]
            exact Bool.eq_false_iff.mpr (fun hc => hpre hc)
        | succ p' => exact ih i' hi' p' (by omega)

theorem findSub_none_occurs (sep : List Char) :
    ∀ l : List Char, findSub sep l = none →
      ∀ p : Nat, occursAt sep l p = false := by
  intro l
  induction l with
  | nil =>
      intro h p
      simp only [findSub] at h
      by_cases he : sep.isEmpty
      · rw [if_pos he] at h; cases h
      · simp only [occursAt, List.drop_nil]
        cases sep with
        | nil => simp at he
        | cons a as => rfl
  | cons c rest ih =>
      intro h p
      simp only [findSub] at h
      by_cases hpre : sep.isPrefixOf (c :: rest) = true
      · rw [if_pos hpre] at h; cases h
      · rw [if_neg hpre] at h
        cases p with
        | zero =>
            simp only [occursAt, List.drop_zero]
            exact Bool.eq_false_iff.mpr (fun hc => hpre hc)
        | succ p' =>
            exact ih (by simpa using h) p'

theorem containsSub_eq_isSome (sep : List Char) (hne : sep ≠ []) :
    ∀ l : List Char, containsSub sep l = (findSub sep l).isSome := by
  intro l
  induction l with
  | nil =>
      have he : sep.isEmpty = false := by
        cases sep with
        | nil => exact absurd rfl hne
        | cons a as => rfl
      simp [containsSub, findSub, he]
  | cons c rest ih =>
      simp only [containsSub, findSub]
      by_cases hpre : sep.isPrefixOf (c :: rest) = true
      · simp [hpre]
      · have hf : sep.isPrefixOf (c :: rest) = false :=
          Bool.eq_false_iff.mpr (fun hc => hpre hc)
        simp only [hf, Bool.false_or, Bool.false_eq_true, if_false]
        rw [ih]
        cases findSub sep rest <;> rfl

theorem pySplit_of_findSub_some (sep : List Char) (hne : sep ≠ []) :
    ∀ l : List Char, ∀ i : Nat, findSub sep l = some i →
      pySplit sep l = l.take i :: pySplit sep (l.drop (i + sep.length)) := by
  intro l
  induction l with
  | nil =>
      intro i h
      have he : sep.isEmpty = false := by
        cases sep with
        | nil => exact absurd rfl hne
        | cons a as => rfl
      simp [findSub, he] at h
  | cons c rest ih =>
      intro i h
      simp only [findSub] at h
      by_cases hpre : sep.isPrefixOf (c :: rest) = true
      · rw [if_pos hpre] at h
        cases h
        rw [pySplit_cons_pos sep c rest hpre hne]
        simp
      · rw [if_neg hpre] at h
        rcases Option.map_eq_some'.mp h with ⟨i', hi', rfl⟩
        have hf : sep.isPrefixOf (c :: rest) = false :=
          Bool.eq_false_iff.mpr (fun hc => hpre hc)
        rw [pySplit_cons_neg sep c rest hf, ih i' hi']
        have hd : (c :: rest).drop (i' + 1 + sep.length) = rest.drop (i' + sep.length) := by
          have : i' + 1 + sep.length = (i' + sep.length) + 1 := by omega
          rw [this, List.drop_succ_cons]
        rw [List.take_succ_cons, hd]

theorem pySplit_of_findSub_none (sep : List Char) (_hne : sep ≠ []) :
    ∀ l : List Char, findSub sep l = none → pySplit sep l = [l] := by
  intro l
  induction l with
  | nil => intro _; rfl
  | cons c rest ih =>
      intro h
      simp only [findSub] at h
      by_cases hpre : sep.isPrefixOf (c :: rest) = true
      · rw [if_pos hpre] at h; cases h
      · rw [if_neg hpre] at h
        have hf : sep.isPrefixOf (c :: rest) = false :=
          Bool.eq_false_iff.mpr (fun hc => hpre hc)
        rw [pySplit_cons_neg sep c rest hf, ih (by simpa using h)]

theorem pySplit_getD_zero (sep : List Char) (hne : sep ≠ []) (l : List Char) :
    (pySplit sep l).getD 0 [] =
      match findSub sep l with
      | some i => l.take i
      | none => l := by
  cases h : findSub sep l with
  | some i => rw [pySplit_of_findSub_some sep hne l i h]; rfl
  | none => rw [pySplit_of_findSub_none sep hne l h]; rfl

theorem pySplit_getD_one (sep : List Char) (hne : sep ≠ []) (l : List Char) (i : Nat)
    (h : findSub sep l = some i) :
    (pySplit sep l).getD 1 [] = (pySplit sep (l.drop (i + sep.length))).getD 0 [] := by
  rw [pySplit_of_findSub_some sep hne l i h]
  rfl

theorem occursAt_take (sep l : List Char) (j p : Nat) (hne : sep ≠ [])
    (h : occursAt sep (l.take j) p = true) :
    occursAt sep l p = true ∧ p + sep.length ≤ j := by
  simp only [occursAt] at h ⊢
  rw [List.drop_take j p l] at h
  have hpre : sep <+: (l.drop p).take (j - p) := List.isPrefixOf_iff_prefix.mp h
  have h1 : sep <+: l.drop p := hpre.trans ⟨(l.drop p).drop (j - p), List.take_append_drop _ _⟩
  have h2 : sep.length ≤ ((l.drop p).take (j - p)).length := hpre.length_le
  rw [List.length_take] at h2
  have hsep : 1 ≤ sep.length := List.length_pos.mpr hne
  refine ⟨ List.isPrefixOf_iff_prefix.mpr h1, ?_⟩
  omega

theorem findSub_take_none (sep l : List Char) (hne : sep ≠ []) (j : Nat)
    (hj : findSub sep l = some j) :
    findSub sep (l.take j) = none := by
  cases h : findSub sep (l.take j) with
  | none => rfl
  | some p =>
      have hocc := findSub_some_occurs sep (l.take j) p h
      have ⟨hol, hle⟩ := occursAt_take sep l j p hne hocc
      have hsep : 1 ≤ sep.length := List.length_pos.mpr hne
      have hmin := findSub_some_min sep l j hj p (by omega)
      rw [hol] at hmin
      cases hmin

theorem occursAt_fence_of_jsonFence (l : List Char) (p : Nat)
    (h : occursAt jsonFenceMark l p = true) : occursAt fenceMark l p = true := by
  simp only [occursAt] at h ⊢
  have hj : jsonFenceMark <+: l.drop p := List.isPrefixOf_iff_prefix.mp h
  have hf : fenceMark <+: jsonFenceMark := by decide
  exact List.isPrefixOf_iff_prefix.mpr (hf.trans hj)

theorem findSub_jsonFence_none (l : List Char)
    (h : findSub fenceMark l = none) : findSub jsonFenceMark l = none := by
  cases hj : findSub jsonFenceMark l with
  | none => rfl
  | some i =>
      have hocc := occursAt_fence_of_jsonFence l i (findSub_some_occurs _ l i hj)
      rw [findSub_none_occurs fenceMark l h i] at hocc
      cases hocc

/-! ## Specification-side description of the extractor's candidate choice -/

/-- The candidate text the extractor hands to the fallback parse, described
positionally. When a `'```json'` marker is present: the text after the
first such marker, truncated at the next `'```json'` marker and then at
the first `'```'` marker lying wholly within that truncated segment (so
backticks immediately preceding a second `'```json'` marker are kept).
Otherwise, when a `'```'` marker is present: the text between the first
and the following `'```'` marker (to the end when no second one exists).
Otherwise the whole text. -/
def amendedCandidate (cs : List Char) : List Char :=
  match findSub jsonFenceMark cs with
  | some i =>
      let seg := cs.drop (i + jsonFenceMark.length)
      let seg2 :=
        match findSub jsonFenceMark seg with
        | some j => seg.take j
        | none => seg
      match findSub fenceMark seg2 with
      | some k => seg2.take k
      | none => seg2
  | none =>
      match findSub fenceMark cs with
      | some i =>
          let seg := cs.drop (i + fenceMark.length)
          match findSub fenceMark seg with
          | some j => seg.take j
          | none => seg
      | none => cs

/-- The candidate choice exactly as the frozen claim words it: with a
`'```json'` marker present, "the text between the first such marker and
the next `'```'` marker" (to the end when no `'```'` follows). -/
def claimedCandidate (cs : List Char) : List Char :=
  match findSub jsonFenceMark cs with
  | some i =>
      let seg := cs.drop (i + jsonFenceMark.length)
      match findSub fenceMark seg with
      | some k => seg.take k
      | none => seg
  | none =>
      match findSub fenceMark cs with
      | some i =>
          let seg := cs.drop (i + fenceMark.length)
          match findSub fenceMark seg with
          | some j => seg.take j
          | none => seg
      | none => cs

theorem candidate_eq (cs : List Char) :
    (if containsSub jsonFenceMark cs then
       ((pySplit fenceMark ((pySplit jsonFenceMark cs).getD 1 [])).getD 0 [])
     else if containsSub fenceMark cs then
       ((pySplit fenceMark ((pySplit fenceMark cs).getD 1 [])).getD 0 [])
     else cs) = amendedCandidate cs := by
  have hne7 : jsonFenceMark ≠ [] := by decide
  have hne3 : fenceMark ≠ [] := by decide
  by_cases h1 : containsSub jsonFenceMark cs = true
  · rw [if_pos h1]
    have h1' := h1
    rw [containsSub_eq_isSome jsonFenceMark hne7] at h1'
    obtain ⟨i, hi⟩ := Option.isSome_iff_exists.mp h1'
    rw [pySplit_getD_one jsonFenceMark hne7 cs i hi,
        pySplit_getD_zero jsonFenceMark hne7 (cs.drop (i + jsonFenceMark.length))]
    cases h2 : findSub jsonFenceMark (cs.drop (i + jsonFenceMark.length)) with
    | some j =>
        rw [pySplit_getD_zero fenceMark hne3]
        simp only [amendedCandidate, hi, h2]
    | none =>
        rw [pySplit_getD_zero fenceMark hne3]
        simp only [amendedCandidate, hi, h2]
  · rw [if_neg h1]
    have hj : findSub jsonFenceMark cs = none := by
      rw [containsSub_eq_isSome jsonFenceMark hne7] at h1
      exact Option.not_isSome_iff_eq_none.mp (by simpa using h1)
    by_cases h2 : containsSub fenceMark cs = true
    · rw [if_pos h2]
      have h2' := h2
      rw [containsSub_eq_isSome fenceMark hne3] at h2'
      obtain ⟨i, hi⟩ := Option.isSome_iff_exists.mp h2'
      rw [pySplit_getD_one fenceMark hne3 cs i hi,
          pySplit_getD_zero fenceMark hne3 (cs.drop (i + fenceMark.length))]
      cases h3 : findSub fenceMark (cs.drop (i + fenceMark.length)) with
      | some j =>
          rw [pySplit_getD_zero fenceMark hne3,
              findSub_take_none fenceMark (cs.drop (i + fenceMark.length)) hne3 j h3]
          simp only [amendedCandidate, hj, hi, h3]
      | none =>
          rw [pySplit_getD_zero fenceMark hne3, h3]
          simp only [amendedCandidate, hj, hi, h3]
    · rw [if_neg h2]
      have hf : findSub fenceMark cs = none := by
        rw [containsSub_eq_isSome fenceMark hne3] at h2
        exact Option.not_isSome_iff_eq_none.mp (by simpa using h2)
      simp only [amendedCandidate, hj, hf]

/-- On direct-parse failure the extractor parses exactly the stripped
`amendedCandidate` of the text, propagating the parser's outcome. -/
theorem extract_fallback (loads : String → Except String Json) (text : String)
    (e : String) (h : loads text = Except.error e) :
    extract_json_from_response loads text
      = loads (String.mk (pyStrip (amendedCandidate text.toList))) := by
  unfold extract_json_from_response
  rw [h]
  show loads (String.mk (pyStrip
      (if containsSub jsonFenceMark text.toList then
        ((pySplit fenceMark ((pySplit jsonFenceMark text.toList).getD 1 [])).getD 0 [])
      else if containsSub fenceMark text.toList then
        ((pySplit fenceMark ((pySplit fenceMark text.toList).getD 1 [])).getD 0 [])
      else text.toList))) = _
  rw [candidate_eq]

/-- A concrete stand-in for `json.loads` that agrees with it on every input
the concrete examples below exercise: the text `"5"` parses to the number
5; every other input raises a decode error (as `json.loads` does on all of
them). -/
def cexLoads : String → Except String Json := fun s =>
  if s = "5" then Except.ok (Json.num 5)
  else Except.error "Expecting value: line 1 column 1 (char 0)"

/-- C3 (amended): the Extractor first attempts a direct JSON parse of the
entire text and returns its value on success; on failure it parses exactly
the stripped `amendedCandidate` — the text after the first `'```json'`
marker truncated at the next `'```json'` marker and then at the first
`'```'` marker wholly within that segment, else the text between the first
and second `'```'` markers, else the whole text — and the outcome of that
fallback parse (value or exception) is returned as is, never swallowed. -/
theorem extractor_candidate_selection (loads : String → Except String Json)
    (text : String) :
    (∀ v : Json, loads text = Except.ok v →
        extract_json_from_response loads text = Except.ok v)
  ∧ (∀ e : String, loads text = Except.error e →
        extract_json_from_response loads text
          = loads (String.mk (pyStrip (amendedCandidate text.toList)))) := by
  constructor
  · intro v hv
    unfold extract_json_from_response
    rw [hv]
  · intro e he
    exact extract_fallback loads text e he

/-- Witness for `extractor_candidate_selection` on a fenced reply whose
direct parse fails. -/
theorem extractor_candidate_selection_witness :
    extract_json_from_response cexLoads "reply: ```json 5 ``` end"
      = cexLoads (String.mk (pyStrip (amendedCandidate ("reply: ```json 5 ``` end").toList))) :=
  (extractor_candidate_selection cexLoads "reply: ```json 5 ``` end").2
    "Expecting value: line 1 column 1 (char 0)" rfl

/-- C3 counterexample: on the input `"```json5````json!"` — one backtick
standing directly before a second `'```json'` marker — the extractor's
candidate is `"5`"` (Python split keeps the stray backtick), whose parse
fails; the text between the first `'```json'` marker and the next `'```'`
marker, which the claim says is parsed, is `"5"`, which parses fine. -/
theorem extractor_fence_claim_cex :
    extract_json_from_response cexLoads "```json5````json!"
        = Except.error "Expecting value: line 1 column 1 (char 0)"
  ∧ cexLoads (String.mk (pyStrip (claimedCandidate ("```json5````json!".toList))))
        = Except.ok (Json.num 5) :=
  ⟨rfl, rfl⟩

/-- C8: when the whole text is well-formed JSON (the external parser
accepts it), the Extractor returns exactly the directly parsed value, with
no fence handling applied. -/
theorem extractor_direct_roundtrip (loads : String → Except String Json)
    (text : String) (v : Json) (h : loads text = Except.ok v) :
    extract_json_from_response loads text = Except.ok v := by
  unfold extract_json_from_response
  rw [h]

/-- Witness for `extractor_direct_roundtrip`. -/
theorem extractor_direct_roundtrip_witness :
    extract_json_from_response cexLoads "5" = Except.ok (Json.num 5) :=
  extractor_direct_roundtrip cexLoads "5" (Json.num 5) rfl

/-- C10: when the direct parse fails, a `'```json'` marker is present and
no `'```'` occurs after it, the Extractor parses everything after the
marker (trimmed); a missing closing fence alone never causes a failure. -/
theorem unclosed_json_fence (loads : String → Except String Json)
    (text : String) (e : String) (i : Nat)
    (hfail : loads text = Except.error e)
    (hfind : findSub jsonFenceMark text.toList = some i)
    (hnoclose : findSub fenceMark (text.toList.drop (i + jsonFenceMark.length)) = none) :
    extract_json_from_response loads text
      = loads (String.mk (pyStrip (text.toList.drop (i + jsonFenceMark.length)))) := by
  rw [extract_fallback loads text e hfail]
  have hjn : findSub jsonFenceMark (text.toList.drop (i + jsonFenceMark.length)) = none :=
    findSub_jsonFence_none _ hnoclose
  simp only [amendedCandidate, hfind, hjn, hnoclose]

/-- A concrete stand-in for `json.loads` for the unclosed-fence witness:
the object text parses to `{"a": 1}`, everything else raises. -/
def wloads10 : String → Except String Json := fun s =>
  if s = "\x7b\"a\": 1\x7d" then Except.ok (Json.obj [("a", Json.num 1)])
  else Except.error "Expecting value: line 1 column 1 (char 0)"

/-- Witness for `unclosed_json_fence`: a JSON-tagged fence that is never
closed still extracts successfully. -/
theorem unclosed_json_fence_witness :
    extract_json_from_response wloads10 "```json \x7b\"a\": 1\x7d"
      = Except.ok (Json.obj [("a", Json.num 1)]) := by
  rw [unclosed_json_fence wloads10 "```json \x7b\"a\": 1\x7d"
        "Expecting value: line 1 column 1 (char 0)" 0 rfl rfl rfl]
  rfl

/-! ## Orchestrator claims -/

/-- Model reply text carrying a valid SQL directive. -/
def wSqlText : String := "\x7b\"sqlQuery\": \"SELECT 1\"\x7d"

/-- Model reply text carrying a valid SQL directive with a description. -/
def wSqlTextD : String :=
  "\x7b\"sqlQuery\": \"SELECT 1\", \"description\": \"count\"\x7d"

/-- Model reply text carrying a valid answer directive. -/
def wAnsText : String := "\x7b\"message\": \"hi\"\x7d"

/-- Concrete `json.loads` stand-in for the orchestrator witnesses, agreeing
with the real parser on the handful of texts they exercise. -/
def wloads : String → Except String Json := fun s =>
  if s = "\x7b\x7d" then Except.ok (Json.obj [])
  else if s = wSqlText then Except.ok (Json.obj [("sqlQuery", Json.str "SELECT 1")])
  else if s = wSqlTextD then
    Except.ok (Json.obj [("sqlQuery", Json.str "SELECT 1"),
                         ("description", Json.str "count")])
  else if s = wAnsText then Except.ok (Json.obj [("message", Json.str "hi")])
  else Except.error "Expecting value: line 1 column 1 (char 0)"

/-- One failing iteration with attempts remaining: sleep and continue. -/
theorem askLoop_step_err (env : AskEnv) (attempt r : Nat) (e : String)
    (ex : List (Nat × String))
    (hat : attemptRun env attempt = (Except.error e, ex))
    (hlt : attempt < tries - 1) :
    askLoop env attempt (r + 1) =
      { ret := (askLoop env (attempt + 1) r).ret
      , sleeps := 2 * (attempt + 1) :: (askLoop env (attempt + 1) r).sleeps
      , execs := ex ++ (askLoop env (attempt + 1) r).execs
      , attempts := (askLoop env (attempt + 1) r).attempts + 1 } := by
  simp only [askLoop, hat, if_pos hlt]

/-- One failing iteration with no attempt remaining: the error tuple. -/
theorem askLoop_step_err_last (env : AskEnv) (attempt r : Nat) (e : String)
    (ex : List (Nat × String))
    (hat : attemptRun env attempt = (Except.error e, ex))
    (hge : ¬ attempt < tries - 1) :
    askLoop env attempt (r + 1) =
      { ret := PyRet.strNonePair ("Sorry, I encountered an error: " ++ e)
      , sleeps := [], execs := ex, attempts := 1 } := by
  simp only [askLoop, hat, if_neg hge]

/-- One succeeding iteration: return the message. -/
theorem askLoop_step_ok (env : AskEnv) (attempt r : Nat) (v : Json)
    (ex : List (Nat × String))
    (hat : attemptRun env attempt = (Except.ok v, ex)) :
    askLoop env attempt (r + 1) =
      { ret := PyRet.val v, sleeps := [], execs := ex, attempts := 1 } := by
  simp only [askLoop, hat]

/-- C1: when the SQL-generation stage fails on attempts 1, 2 and 3 and the
whole pipeline succeeds on attempt 4, `ask` sleeps exactly 2, 4 and 6
seconds (in that order), runs exactly 4 attempts, and returns the
successful answer message. -/
theorem ask_backoff_three_failures (env : AskEnv) (e0 e1 e2 : String) (v : Json)
    (h0 : sqlStage env 0 = Except.error e0)
    (h1 : sqlStage env 1 = Except.error e1)
    (h2 : sqlStage env 2 = Except.error e2)
    (h3 : (attemptRun env 3).1 = Except.ok v) :
    (ask env).sleeps = [2, 4, 6] ∧ (ask env).attempts = 4
      ∧ (ask env).ret = PyRet.val v := by
  have a0 : attemptRun env 0 = (Except.error e0, []) := by
    unfold attemptRun; rw [h0]
  have a1 : attemptRun env 1 = (Except.error e1, []) := by
    unfold attemptRun; rw [h1]
  have a2 : attemptRun env 2 = (Except.error e2, []) := by
    unfold attemptRun; rw [h2]
  have hp : attemptRun env 3 = (Except.ok v, (attemptRun env 3).2) := by
    rw [← h3]
  have s0 := askLoop_step_err env 0 3 e0 [] a0 (by decide)
  have s1 := askLoop_step_err env 1 2 e1 [] a1 (by decide)
  have s2 := askLoop_step_err env 2 1 e2 [] a2 (by decide)
  have s3 := askLoop_step_ok env 3 0 v (attemptRun env 3).2 hp
  have hfin : ask env =
      { ret := PyRet.val v
      , sleeps := [2, 4, 6]
      , execs := (attemptRun env 3).2
      , attempts := 4 } := by
    show askLoop env 0 4 = _
    rw [show (4 : Nat) = 3 + 1 from rfl, s0,
        show (3 : Nat) = 2 + 1 from rfl, s1,
        show (2 : Nat) = 1 + 1 from rfl, s2,
        show (1 : Nat) = 0 + 1 from rfl, s3]
    rfl
  rw [hfin]
  exact ⟨rfl, rfl, rfl⟩

/-- Environment for `ask_backoff_three_failures`: unparseable SQL replies
on attempts 1–3, a full success on attempt 4. -/
def wenv1 : AskEnv :=
  { loads := wloads
  , sqlReply := fun a => if a < 3 then Except.ok "garbage" else Except.ok wSqlText
  , execQuery := fun _ q => if q = "SELECT 1" then Except.ok [[Prim.pint 1]]
                            else Except.error "OperationalError: no such table"
  , ansReply := fun _ _ => Except.ok wAnsText }

/-- Witness for `ask_backoff_three_failures`. -/
theorem ask_backoff_three_failures_witness :
    (ask wenv1).sleeps = [2, 4, 6] ∧ (ask wenv1).attempts = 4
      ∧ (ask wenv1).ret = PyRet.val (Json.str "hi") :=
  ask_backoff_three_failures wenv1
    "Expecting value: line 1 column 1 (char 0)"
    "Expecting value: line 1 column 1 (char 0)"
    "Expecting value: line 1 column 1 (char 0)"
    (Json.str "hi") rfl rfl rfl rfl

/-- Environment in which every attempt's SQL-generation call raises. -/
def wenv2 : AskEnv :=
  { loads := wloads
  , sqlReply := fun _ => Except.error "boom"
  , execQuery := fun _ _ => Except.error "unused"
  , ansReply := fun _ _ => Except.error "unused" }

/-- C2 (code bug): when all 4 attempts fail, `ask` does not return a plain
string — it returns the 2-tuple `(f"Sorry, I encountered an error:
{str(e)}", None)` (line 239), a leftover of the earlier two-output Gradio
interface; the success path (line 229) had its `, data` component commented
out, the failure path did not. -/
theorem ask_failure_returns_tuple :
    (ask wenv2).ret = PyRet.strNonePair "Sorry, I encountered an error: boom"
      ∧ ∀ v : Json, (ask wenv2).ret ≠ PyRet.val v := by
  constructor
  · rfl
  · intro v h
    rw [show (ask wenv2).ret = PyRet.strNonePair "Sorry, I encountered an error: boom"
          from rfl] at h
    cases h

/-- C4: when SQL generation fails on every one of the 4 attempts, `ask`
never calls `cur.execute` (no SQL touches the database) and returns the
failure return built from the fixed format and the last error. -/
theorem ask_no_sql_executed (env : AskEnv) (e0 e1 e2 e3 : String)
    (h0 : sqlStage env 0 = Except.error e0)
    (h1 : sqlStage env 1 = Except.error e1)
    (h2 : sqlStage env 2 = Except.error e2)
    (h3 : sqlStage env 3 = Except.error e3) :
    (ask env).execs = [] ∧
    (ask env).ret = PyRet.strNonePair ("Sorry, I encountered an error: " ++ e3) := by
  have a0 : attemptRun env 0 = (Except.error e0, []) := by
    unfold attemptRun; rw [h0]
  have a1 : attemptRun env 1 = (Except.error e1, []) := by
    unfold attemptRun; rw [h1]
  have a2 : attemptRun env 2 = (Except.error e2, []) := by
    unfold attemptRun; rw [h2]
  have a3 : attemptRun env 3 = (Except.error e3, []) := by
    unfold attemptRun; rw [h3]
  have s0 := askLoop_step_err env 0 3 e0 [] a0 (by decide)
  have s1 := askLoop_step_err env 1 2 e1 [] a1 (by decide)
  have s2 := askLoop_step_err env 2 1 e2 [] a2 (by decide)
  have s3 := askLoop_step_err_last env 3 0 e3 [] a3 (by decide)
  have hfin : ask env =
      { ret := PyRet.strNonePair ("Sorry, I encountered an error: " ++ e3)
      , sleeps := [2, 4, 6]
      , execs := []
      , attempts := 4 } := by
    show askLoop env 0 4 = _
    rw [show (4 : Nat) = 3 + 1 from rfl, s0,
        show (3 : Nat) = 2 + 1 from rfl, s1,
        show (2 : Nat) = 1 + 1 from rfl, s2,
        show (1 : Nat) = 0 + 1 from rfl, s3]
    rfl
  rw [hfin]
  exact ⟨rfl, rfl⟩

/-- Witness for `ask_no_sql_executed`. -/
theorem ask_no_sql_executed_witness :
    (ask wenv2).execs = [] ∧
    (ask wenv2).ret = PyRet.strNonePair ("Sorry, I encountered an error: " ++ "boom") :=
  ask_no_sql_executed wenv2 "boom" "boom" "boom" "boom" rfl rfl rfl rfl

/-- The spec's SQL Directive contract: an object with a string `sqlQuery`,
and a `description` that is a string whenever present. -/
def IsSqlDirective (v : Json) : Prop :=
  ∃ fields, v = Json.obj fields
    ∧ (∃ q, jlookup fields "sqlQuery" = some (Json.str q))
    ∧ (∀ d, jlookup fields "description" = some d → ∃ s, d = Json.str s)

/-- The spec's Answer Directive contract: an object with a string
`message`. -/
def IsAnswerDirective (v : Json) : Prop :=
  ∃ fields, v = Json.obj fields
    ∧ (∃ m, jlookup fields "message" = some (Json.str m))

theorem validate_sql_ok_iff (v : Json) :
    validate_sql_schema v = Except.ok () ↔ IsSqlDirective v := by
  constructor
  · intro h
    cases v with
    | obj fields =>
        simp only [validate_sql_schema] at h
        cases hq : jlookup fields "sqlQuery" with
        | none => simp [hq] at h
        | some qv =>
            simp only [hq] at h
            cases qv with
            | str q =>
                refine ⟨fields, rfl, ⟨q, hq⟩, ?_⟩
                intro d hd
                simp only [hd] at h
                cases d with
                | str s => exact ⟨s, rfl⟩
                | null => simp at h
                | bool b => simp at h
                | num n => simp at h
                | arr xs => simp at h
                | obj fs => simp at h
            | null => simp at h
            | bool b => simp at h
            | num n => simp at h
            | arr xs => simp at h
            | obj fs => simp at h
    | null => simp [validate_sql_schema] at h
    | bool b => simp [validate_sql_schema] at h
    | num n => simp [validate_sql_schema] at h
    | str s => simp [validate_sql_schema] at h
    | arr xs => simp [validate_sql_schema] at h
  · rintro ⟨fields, rfl, ⟨q, hq⟩, hdesc⟩
    simp only [validate_sql_schema, hq]
    cases hd : jlookup fields "description" with
    | none => simp only [hd]
    | some d =>
        obtain ⟨s, rfl⟩ := hdesc d hd
        simp only [hd]

theorem validate_response_ok_iff (v : Json) :
    validate_response_schema v = Except.ok () ↔ IsAnswerDirective v := by
  constructor
  · intro h
    cases v with
    | obj fields =>
        simp only [validate_response_schema] at h
        cases hm : jlookup fields "message" with
        | none => simp [hm] at h
        | some mv =>
            simp only [hm] at h
            cases mv with
            | str m => exact ⟨fields, rfl, ⟨m, hm⟩⟩
            | null => simp at h
            | bool b => simp at h
            | num n => simp at h
            | arr xs => simp at h
            | obj fs => simp at h
    | null => simp [validate_response_schema] at h
    | bool b => simp [validate_response_schema] at h
    | num n => simp [validate_response_schema] at h
    | str s => simp [validate_response_schema] at h
    | arr xs => simp [validate_response_schema] at h
  · rintro ⟨fields, rfl, ⟨m, hm⟩⟩
    simp only [validate_response_schema, hm]

/-- C5: SQL-stage validation accepts exactly the SQL Directives (string
`sqlQuery` required, `description` optional but string when present),
answer-stage validation accepts exactly the Answer Directives (string
`message` required); on violation the validator raises, and the
orchestrator treats a SQL-stage validation error on an attempt with
attempts remaining as recoverable: the run sleeps and continues with the
next attempt instead of terminating. -/
theorem validator_contract (v w : Json) (env : AskEnv) (a rem : Nat)
    (t : String) (j : Json) (ev : String)
    (ha : a < tries - 1)
    (hr : env.sqlReply a = Except.ok t)
    (hx : extract_json_from_response env.loads t = Except.ok j)
    (hv : validate_sql_schema j = Except.error ev) :
    (validate_sql_schema v = Except.ok () ↔ IsSqlDirective v)
  ∧ (validate_response_schema w = Except.ok () ↔ IsAnswerDirective w)
  ∧ (askLoop env a (rem + 1)).ret = (askLoop env (a + 1) rem).ret
  ∧ (askLoop env a (rem + 1)).sleeps
      = 2 * (a + 1) :: (askLoop env (a + 1) rem).sleeps := by
  have hs : sqlStage env a = Except.error ev := by
    simp only [sqlStage, hr, hx, hv]
  have hat : attemptRun env a = (Except.error ev, []) := by
    unfold attemptRun; rw [hs]
  have hstep := askLoop_step_err env a rem ev [] hat ha
  refine ⟨validate_sql_ok_iff v, validate_response_ok_iff w, ?_, ?_⟩ <;>
    rw [hstep]

/-- Environment whose SQL reply parses to the empty object (which fails
SQL-stage validation). -/
def wenv5 : AskEnv :=
  { loads := wloads
  , sqlReply := fun _ => Except.ok "\x7b\x7d"
  , execQuery := fun _ _ => Except.error "unused"
  , ansReply := fun _ _ => Except.error "unused" }

/-- Witness for `validator_contract`. -/
theorem validator_contract_witness :
    (validate_sql_schema (Json.obj [("sqlQuery", Json.str "SELECT 1")]) = Except.ok ()
        ↔ IsSqlDirective (Json.obj [("sqlQuery", Json.str "SELECT 1")]))
  ∧ (validate_response_schema (Json.obj [("message", Json.str "hi")]) = Except.ok ()
        ↔ IsAnswerDirective (Json.obj [("message", Json.str "hi")]))
  ∧ (askLoop wenv5 0 (2 + 1)).ret = (askLoop wenv5 (0 + 1) 2).ret
  ∧ (askLoop wenv5 0 (2 + 1)).sleeps = 2 * (0 + 1) :: (askLoop wenv5 (0 + 1) 2).sleeps :=
  validator_contract (Json.obj [("sqlQuery", Json.str "SELECT 1")])
    (Json.obj [("message", Json.str "hi")]) wenv5 0 2 "\x7b\x7d" (Json.obj [])
    "ValidationError: sqlQuery is a required property" (by decide) rfl rfl rfl

/-- Every `cur.execute` call recorded by one attempt carries that attempt's
index and the query freshly produced by its own SQL-generation stage. -/
theorem attemptRun_execs (env : AskEnv) (att b : Nat) (q : String)
    (h : (b, q) ∈ (attemptRun env att).2) :
    b = att ∧ sqlStage env att = Except.ok q := by
  unfold attemptRun at h
  cases hs : sqlStage env att with
  | error e => simp [hs] at h
  | ok q' =>
      simp only [hs] at h
      simp at h
      obtain ⟨hb, hq⟩ := h
      exact ⟨hb, congrArg Except.ok hq.symm⟩

/-- Every `cur.execute` call recorded by the retry loop started at attempt
`att` belongs to some attempt `b ≥ att` and executes exactly the query its
own SQL-generation stage produced. -/
theorem askLoop_execs_inv (env : AskEnv) :
    ∀ rem att b : Nat, ∀ q : String, (b, q) ∈ (askLoop env att rem).execs →
      att ≤ b ∧ sqlStage env b = Except.ok q := by
  intro rem
  induction rem with
  | zero => intro att b q h; simp [askLoop] at h
  | succ r ih =>
      intro att b q h
      cases hat : attemptRun env att with
      | mk out ex =>
          cases out with
          | ok v =>
              rw [askLoop_step_ok env att r v ex hat] at h
              have h' : (b, q) ∈ ex := h
              have ⟨hb, hq⟩ := attemptRun_execs env att b q (by rw [hat]; exact h')
              exact ⟨le_of_eq hb.symm, hb ▸ hq⟩
          | error e =>
              by_cases hlt : att < tries - 1
              · rw [askLoop_step_err env att r e ex hat hlt] at h
                have h' : (b, q) ∈ ex ++ (askLoop env (att + 1) r).execs := h
                rcases List.mem_append.mp h' with hl | hr
                · have ⟨hb, hq⟩ := attemptRun_execs env att b q (by rw [hat]; exact hl)
                  exact ⟨le_of_eq hb.symm, hb ▸ hq⟩
                · have ⟨hb, hq⟩ := ih (att + 1) b q hr
                  exact ⟨by omega, hq⟩
              · rw [askLoop_step_err_last env att r e ex hat hlt] at h
                have h' : (b, q) ∈ ex := h
                have ⟨hb, hq⟩ := attemptRun_execs env att b q (by rw [hat]; exact h')
                exact ⟨le_of_eq hb.symm, hb ▸ hq⟩

/-- C6: when an attempt whose SQL generation succeeded with query `q` fails
later (in execution or in answer generation) and attempts remain, the run
continues with the next attempt — whose result becomes the run's result —
after recording only the one execution of `q` at this attempt; and every
query executed from the next attempt on is the one freshly produced by the
SQL-generation stage of its own attempt, never a directive carried over
from an earlier attempt. -/
theorem retry_restarts_from_sql_generation (env : AskEnv) (a rem : Nat)
    (q e : String)
    (hq : sqlStage env a = Except.ok q)
    (hf : (attemptRun env a).1 = Except.error e)
    (ha : a < tries - 1) :
    (askLoop env a (rem + 1)).ret = (askLoop env (a + 1) rem).ret
  ∧ (askLoop env a (rem + 1)).execs = (a, q) :: (askLoop env (a + 1) rem).execs
  ∧ ∀ b : Nat, ∀ q' : String, (b, q') ∈ (askLoop env (a + 1) rem).execs →
      a + 1 ≤ b ∧ sqlStage env b = Except.ok q' := by
  have h2 : (attemptRun env a).2 = [(a, q)] := by
    unfold attemptRun; rw [hq]
  have hat : attemptRun env a = (Except.error e, [(a, q)]) := by
    cases hrun : attemptRun env a with
    | mk out ex =>
        rw [hrun] at hf h2
        simp only at hf h2
        rw [hf, h2]
  have hstep := askLoop_step_err env a rem e [(a, q)] hat ha
  refine ⟨by rw [hstep], ?_, fun b q' hm => askLoop_execs_inv env rem (a + 1) b q' hm⟩
  rw [hstep]
  rfl

/-- Environment whose first attempt generates a valid directive whose
execution fails, and whose later attempts succeed fully. -/
def wenv6 : AskEnv :=
  { loads := wloads
  , sqlReply := fun _ => Except.ok wSqlText
  , execQuery := fun a q =>
      if a = 0 then Except.error "OperationalError: no such table: t"
      else if q = "SELECT 1" then Except.ok [[Prim.pint 1]]
      else Except.error "OperationalError: syntax error"
  , ansReply := fun _ _ => Except.ok wAnsText }

/-- Witness for `retry_restarts_from_sql_generation`. -/
theorem retry_restarts_from_sql_generation_witness :
    (askLoop wenv6 0 (3 + 1)).ret = (askLoop wenv6 (0 + 1) 3).ret
  ∧ (askLoop wenv6 0 (3 + 1)).execs = (0, "SELECT 1") :: (askLoop wenv6 (0 + 1) 3).execs
  ∧ ∀ b : Nat, ∀ q' : String, (b, q') ∈ (askLoop wenv6 (0 + 1) 3).execs →
      0 + 1 ≤ b ∧ sqlStage wenv6 b = Except.ok q' :=
  retry_restarts_from_sql_generation wenv6 0 3 "SELECT 1"
    "OperationalError: no such table: t" rfl rfl (by decide)

/-- A successful attempt outcome decomposes into the three stages run in
order within that same attempt. -/
theorem attemptRun_ok_inv (env : AskEnv) (a : Nat) (m : Json)
    (h : (attemptRun env a).1 = Except.ok m) :
    ∃ q data, sqlStage env a = Except.ok q
      ∧ env.execQuery a q = Except.ok data
      ∧ answerStage env a (dumps data) = Except.ok m := by
  unfold attemptRun at h
  cases hs : sqlStage env a with
  | error e =>
      rw [hs] at h
      simp at h
  | ok q =>
      rw [hs] at h
      simp only at h
      cases hx : env.execQuery a q with
      | error e =>
          rw [hx] at h
          simp at h
      | ok data =>
          rw [hx] at h
          simp only at h
          exact ⟨q, data, rfl, hx, h⟩

/-- A successful loop return comes from a single attempt within range. -/
theorem askLoop_val_inv (env : AskEnv) :
    ∀ rem att : Nat, ∀ m : Json, (askLoop env att rem).ret = PyRet.val m →
      ∃ a : Nat, att ≤ a ∧ a < att + rem ∧ (attemptRun env a).1 = Except.ok m := by
  intro rem
  induction rem with
  | zero => intro att m h; simp [askLoop] at h
  | succ r ih =>
      intro att m h
      cases hat : attemptRun env att with
      | mk out ex =>
          cases out with
          | ok v =>
              rw [askLoop_step_ok env att r v ex hat] at h
              have h' : PyRet.val v = PyRet.val m := h
              have hvm : v = m := by injection h'
              subst hvm
              exact ⟨att, Nat.le_refl att, by omega, by rw [hat]⟩
          | error e =>
              by_cases hlt : att < tries - 1
              · rw [askLoop_step_err env att r e ex hat hlt] at h
                have h' : (askLoop env (att + 1) r).ret = PyRet.val m := h
                obtain ⟨a, ha1, ha2, ha3⟩ := ih (att + 1) m h'
                exact ⟨a, by omega, by omega, ha3⟩
              · rw [askLoop_step_err_last env att r e ex hat hlt] at h
                have h' : PyRet.strNonePair ("Sorry, I encountered an error: " ++ e)
                    = PyRet.val m := h
                cases h'

/-- C7: every successful (non-error) message returned by `ask` was produced
by one single attempt `a < 4` in which, in order, the SQL-generation stage
produced and validated a directive with query `q`, executing `q` returned
`data`, and the answer stage over the serialization of `data` produced the
returned message — so the answer is never paired with a SQL directive from
a different attempt. -/
theorem success_single_attempt (env : AskEnv) (m : Json)
    (h : (ask env).ret = PyRet.val m) :
    ∃ a : Nat, a < tries ∧ ∃ q data,
      sqlStage env a = Except.ok q
      ∧ env.execQuery a q = Except.ok data
      ∧ answerStage env a (dumps data) = Except.ok m := by
  obtain ⟨a, _, ha2, hok⟩ := askLoop_val_inv env tries 0 m h
  obtain ⟨q, data, h1, h2, h3⟩ := attemptRun_ok_inv env a m hok
  exact ⟨a, by simpa using ha2, q, data, h1, h2, h3⟩

/-- Environment whose every attempt succeeds end to end. -/
def wenv7 : AskEnv :=
  { loads := wloads
  , sqlReply := fun _ => Except.ok wSqlText
  , execQuery := fun _ q => if q = "SELECT 1" then Except.ok [[Prim.pint 1]]
                            else Except.error "OperationalError: syntax error"
  , ansReply := fun _ _ => Except.ok wAnsText }

/-- Witness for `success_single_attempt`. -/
theorem success_single_attempt_witness :
    ∃ a : Nat, a < tries ∧ ∃ q data,
      sqlStage wenv7 a = Except.ok q
      ∧ wenv7.execQuery a q = Except.ok data
      ∧ answerStage wenv7 a (dumps data) = Except.ok (Json.str "hi") :=
  success_single_attempt wenv7 (Json.str "hi") rfl

/-- Lifting of a relation on parsed values to call outcomes: both calls
fail with the same error, or both succeed with related values. -/
def ExceptRel (R : Json → Json → Prop) :
    Except String Json → Except String Json → Prop
  | Except.error e₁, Except.error e₂ => e₁ = e₂
  | Except.ok v₁, Except.ok v₂ => R v₁ v₂
  | _, _ => False

/-- The parsed SQL-stage reply of attempt `a` (send, then extract). -/
def sqlJson (env : AskEnv) (a : Nat) : Except String Json :=
  match env.sqlReply a with
  | Except.error e => Except.error e
  | Except.ok t => extract_json_from_response env.loads t

/-- Two parsed SQL-stage replies that agree on every field except
`description`, whose value (per the data model a string, possibly absent)
may differ between them. -/
def DescAgree (v₁ v₂ : Json) : Prop :=
  ∃ f₁ f₂, v₁ = Json.obj f₁ ∧ v₂ = Json.obj f₂
    ∧ (∀ k, k ≠ "description" → jlookup f₁ k = jlookup f₂ k)
    ∧ (∀ d, jlookup f₁ "description" = some d → ∃ s, d = Json.str s)
    ∧ (∀ d, jlookup f₂ "description" = some d → ∃ s, d = Json.str s)

theorem validate_sql_descAgree (v₁ v₂ : Json) (h : DescAgree v₁ v₂) :
    validate_sql_schema v₁ = validate_sql_schema v₂ := by
  obtain ⟨f₁, f₂, rfl, rfl, hk, hd₁, hd₂⟩ := h
  have hq : jlookup f₁ "sqlQuery" = jlookup f₂ "sqlQuery" := hk _ (by decide)
  simp only [validate_sql_schema]
  rw [hq]
  cases hqq : jlookup f₂ "sqlQuery" with
  | none => rfl
  | some qv =>
      cases qv with
      | str q =>
          cases hda : jlookup f₁ "description" with
          | none =>
              cases hdb : jlookup f₂ "description" with
              | none => rfl
              | some d₂ =>
                  obtain ⟨s₂, rfl⟩ := hd₂ d₂ hdb
                  rfl
          | some d₁ =>
              obtain ⟨s₁, rfl⟩ := hd₁ d₁ hda
              cases hdb : jlookup f₂ "description" with
              | none => rfl
              | some d₂ =>
                  obtain ⟨s₂, rfl⟩ := hd₂ d₂ hdb
                  rfl
      | null => rfl
      | bool b => rfl
      | num n => rfl
      | arr xs => rfl
      | obj fs => rfl

theorem jsonIndex_sqlQuery_descAgree (v₁ v₂ : Json) (h : DescAgree v₁ v₂) :
    jsonIndex v₁ "sqlQuery" = jsonIndex v₂ "sqlQuery" := by
  obtain ⟨f₁, f₂, rfl, rfl, hk, _, _⟩ := h
  simp only [jsonIndex]
  rw [hk "sqlQuery" (by decide)]

theorem sqlStage_congr (env₁ env₂ : AskEnv) (a : Nat)
    (h : ExceptRel DescAgree (sqlJson env₁ a) (sqlJson env₂ a)) :
    sqlStage env₁ a = sqlStage env₂ a := by
  have eq₁ : sqlStage env₁ a =
      (match sqlJson env₁ a with
       | Except.error e => Except.error e
       | Except.ok sql_json =>
           match validate_sql_schema sql_json with
           | Except.error e => Except.error e
           | Except.ok _ =>
               match jsonIndex sql_json "sqlQuery" with
               | Except.error e => Except.error e
               | Except.ok (Json.str q) => Except.ok q
               | Except.ok _ => Except.error "TypeError: execute requires a string statement") := by
    unfold sqlStage sqlJson
    cases env₁.sqlReply a <;> rfl
  have eq₂ : sqlStage env₂ a =
      (match sqlJson env₂ a with
       | Except.error e => Except.error e
       | Except.ok sql_json =>
           match validate_sql_schema sql_json with
           | Except.error e => Except.error e
           | Except.ok _ =>
               match jsonIndex sql_json "sqlQuery" with
               | Except.error e => Except.error e
               | Except.ok (Json.str q) => Except.ok q
               | Except.ok _ => Except.error "TypeError: execute requires a string statement") := by
    unfold sqlStage sqlJson
    cases env₂.sqlReply a <;> rfl
  rw [eq₁, eq₂]
  cases h₁ : sqlJson env₁ a with
  | error er₁ =>
      cases h₂ : sqlJson env₂ a with
      | error er₂ =>
          rw [h₁, h₂] at h
          have he : er₁ = er₂ := h
          rw [he]
      | ok v₂ =>
          rw [h₁, h₂] at h
          exact False.elim h
  | ok v₁ =>
      cases h₂ : sqlJson env₂ a with
      | error er₂ =>
          rw [h₁, h₂] at h
          exact False.elim h
      | ok v₂ =>
          rw [h₁, h₂] at h
          have hd : DescAgree v₁ v₂ := h
          show (match validate_sql_schema v₁ with
                | Except.error e => Except.error e
                | Except.ok _ =>
                    match jsonIndex v₁ "sqlQuery" with
                    | Except.error e => Except.error e
                    | Except.ok (Json.str q) => Except.ok q
                    | Except.ok _ => Except.error "TypeError: execute requires a string statement")
            = (match validate_sql_schema v₂ with
               | Except.error e => Except.error e
               | Except.ok _ =>
                   match jsonIndex v₂ "sqlQuery" with
                   | Except.error e => Except.error e
                   | Except.ok (Json.str q) => Except.ok q
                   | Except.ok _ => Except.error "TypeError: execute requires a string statement")
          rw [validate_sql_descAgree v₁ v₂ hd, jsonIndex_sqlQuery_descAgree v₁ v₂ hd]

theorem answerStage_congr (env₁ env₂ : AskEnv)
    (hloads : env₁.loads = env₂.loads)
    (hans : env₁.ansReply = env₂.ansReply) (a : Nat) (dataText : String) :
    answerStage env₁ a dataText = answerStage env₂ a dataText := by
  unfold answerStage
  rw [hloads, hans]

theorem attemptRun_congr (env₁ env₂ : AskEnv)
    (hloads : env₁.loads = env₂.loads)
    (hex : env₁.execQuery = env₂.execQuery)
    (hans : env₁.ansReply = env₂.ansReply)
    (hsql : ∀ b, ExceptRel DescAgree (sqlJson env₁ b) (sqlJson env₂ b))
    (a : Nat) :
    attemptRun env₁ a = attemptRun env₂ a := by
  unfold attemptRun
  simp only [sqlStage_congr env₁ env₂ a (hsql a), hex,
    answerStage_congr env₁ env₂ hloads hans]

theorem askLoop_congr (env₁ env₂ : AskEnv)
    (hrun : ∀ a, attemptRun env₁ a = attemptRun env₂ a) :
    ∀ rem att : Nat, askLoop env₁ att rem = askLoop env₂ att rem := by
  intro rem
  induction rem with
  | zero => intro att; rfl
  | succ r ih =>
      intro att
      simp only [askLoop, hrun att, ih (att + 1)]

/-- C9: two runs that share the parser, the executor and the answer
session, and whose parsed SQL-generation replies agree on every attempt
except possibly in the (string-typed or absent) `description` field, have
identical observable behaviour: the same trace — executed SQL texts,
sleeps, attempts and returned message — and the same SQL text out of every
generation stage (hence the same serialized query result `dumps
(execQuery a q)` handed to the answer stage). -/
theorem description_never_consumed (env₁ env₂ : AskEnv)
    (hloads : env₁.loads = env₂.loads)
    (hex : env₁.execQuery = env₂.execQuery)
    (hans : env₁.ansReply = env₂.ansReply)
    (hsql : ∀ a, ExceptRel DescAgree (sqlJson env₁ a) (sqlJson env₂ a)) :
    ask env₁ = ask env₂ ∧ ∀ a, sqlStage env₁ a = sqlStage env₂ a := by
  have hrun : ∀ a, attemptRun env₁ a = attemptRun env₂ a := fun a =>
    attemptRun_congr env₁ env₂ hloads hex hans hsql a
  exact ⟨askLoop_congr env₁ env₂ hrun tries 0,
         fun a => sqlStage_congr env₁ env₂ a (hsql a)⟩

/-- Shared executor for the description-noninterference witness. -/
def wexec : Nat → String → Except String (List Row) := fun _ q =>
  if q = "SELECT 1" then Except.ok [[Prim.pint 1]]
  else Except.error "OperationalError: syntax error"

/-- Shared answer oracle for the description-noninterference witness. -/
def wans : Nat → String → Except String String := fun _ _ => Except.ok wAnsText

/-- Run whose SQL reply carries a `description`. -/
def wenv9a : AskEnv :=
  { loads := wloads, sqlReply := fun _ => Except.ok wSqlTextD
  , execQuery := wexec, ansReply := wans }

/-- Identical run except the SQL reply omits the `description`. -/
def wenv9b : AskEnv :=
  { loads := wloads, sqlReply := fun _ => Except.ok wSqlText
  , execQuery := wexec, ansReply := wans }

/-- Witness for `description_never_consumed`. -/
theorem description_never_consumed_witness :
    ask wenv9a = ask wenv9b ∧ ∀ a, sqlStage wenv9a a = sqlStage wenv9b a := by
  refine description_never_consumed wenv9a wenv9b rfl rfl rfl ?_
  intro a
  show DescAgree
    (Json.obj [("sqlQuery", Json.str "SELECT 1"), ("description", Json.str "count")])
    (Json.obj [("sqlQuery", Json.str "SELECT 1")])
  refine ⟨_, _, rfl, rfl, ?_, ?_, ?_⟩
  · intro k hk
    have hne : (("description" : String) == k) = false := by
      rw [beq_eq_false_iff_ne]
      exact fun h => hk h.symm
    simp [jlookup, hne]
  · intro d hd
    rw [show jlookup
          [("sqlQuery", Json.str "SELECT 1"), ("description", Json.str "count")]
          "description" = some (Json.str "count") from rfl] at hd
    injection hd with hd'
    exact ⟨"count", hd'.symm⟩
  · intro d hd
    rw [show jlookup [("sqlQuery", Json.str "SELECT 1")] "description" = none
          from rfl] at hd
    cases hd
